import Mathlib

/-!
Verification of the import-rewrite engine of the apollo-angular v2 schematic
migration (packages/apollo-angular/schematics/migrations/v2.ts), as a shallow
embedding.  TypeScript AST nodes become inductive types, the UpdateRecorder
becomes an explicit interpretation of the recorded edits on a list of source
items, and a JavaScript TypeError thrown while reading a property of
`undefined` becomes the error of an `Except` computation.

The file text is modelled as a list of items, each either a statement or a
run of trivia (whitespace between statements).  `recorder.remove(getStart(),
getWidth())` deletes exactly the statement's own text, keeping surrounding
trivia, so at this granularity removal drops the statement item and keeps the
trivia items.  `recorder.insertLeft(sourceFile.getStart(), text)` inserts at
the position of the file's first token, i.e. after the file's leading trivia;
successive insertLeft calls at the same position land in call order.
-/

set_option autoImplicit false

namespace V2

/-- A named import specifier as in the TypeScript AST: in `X as A` the
`propertyName` is the exported name `X` and `name` is the local binding `A`;
in a plain `X` the `propertyName` is absent and `name` is `X`. -/
structure ImportSpecifier where
  propertyName : Option String
  name : String
deriving DecidableEq

/-- An import clause: the optional default-import local binding (`name`) and
the optional named bindings.  A namespace import (`* as ns`), which yields no
`ImportSpecifier` children, is modelled as `some []`. -/
structure ImportClause where
  name : Option String
  namedBindings : Option (List ImportSpecifier)
deriving DecidableEq

/-- A module specifier: either a plain string literal (already unquoted, as
the code strips the quotes with `substr(1, len - 2)`), or some other
expression kept as raw text. -/
inductive ModuleSpecifier where
  | stringLit (value : String)
  | expr (text : String)
deriving DecidableEq

/-- A top-level statement: an import declaration (whose import clause may be
absent, as in a side-effect-only `import 'mod';`), or any other statement
kept as raw text. -/
inductive Statement where
  | importDecl (importClause : Option ImportClause) (moduleSpecifier : ModuleSpecifier)
  | other (text : String)
deriving DecidableEq

/-- A source item: a statement or a run of trivia text between statements. -/
inductive Item where
  | stmt (s : Statement)
  | trivia (text : String)
deriving DecidableEq

/-- Whether an item is trivia. -/
def Item.isTrivia : Item → Bool
  | .trivia _ => true
  | .stmt _ => false

/-- The record handed to `onIdentifier` by `getIdentifiers`: the exported
`name` plus the optional alias (the code stores it in a field called `alias`,
renamed here because `alias` is a reserved word in this development's
environment). -/
structure ImportedSymbol where
  name : String
  aliasName : Option String
deriving DecidableEq

/-- Model of `getIdentifiers` (v2.ts lines 105-122): for each import
specifier, `name` is the `propertyName` when present, else the local `name`;
the alias is `undefined` when `name` equals the local binding name, and is
otherwise set to `name` itself (the source reads `alias: name ===
named.name.escapedText.toString() ? undefined : name`). -/
def getIdentifiers (namedBindings : List ImportSpecifier) : List ImportedSymbol :=
  namedBindings.map fun named =>
    let name :=
      match named.propertyName with
      | some p => p
      | none => named.name
    { name := name
      aliasName := if name = named.name then none else some name }

/-- The per-file accumulator `importsMap`: a record from destination package
name to the pushed symbols, with JavaScript string-key insertion order. -/
abbrev ImportsMap := List (String × List ImportedSymbol)

/-- Model of `importsMap[packageName].push(sym)` preceded by
`if (!importsMap[packageName]) importsMap[packageName] = []`:
append to the bucket if present, else create it at the end (new string keys
are enumerated after existing ones by `Object.keys`). -/
def pushSymbol : ImportsMap → String → ImportedSymbol → ImportsMap
  | [], packageName, sym => [(packageName, [sym])]
  | (k, v) :: rest, packageName, sym =>
    if k = packageName then (k, v ++ [sym]) :: rest
    else (k, v) :: pushSymbol rest packageName sym

/-- Model of `collectIdentifiers` (v2.ts lines 138-152): push every symbol
produced by `getIdentifiers` into the bucket of `packageName`, in order. -/
def collectIdentifiers (m : ImportsMap) (packageName : String)
    (namedBindings : List ImportSpecifier) : ImportsMap :=
  (getIdentifiers namedBindings).foldl (fun acc s => pushSymbol acc packageName s) m

/-- Model of `redirectImport` (v2.ts lines 154-174).  When the statement's
module path equals `source`, the statement's named bindings (if any) are
collected under `target` and `recorder.remove` is called once; the returned
number counts the remove calls.  Reading `statement.importClause.namedBindings`
when the import clause is absent throws a TypeError. -/
def redirectImport (source target modulePath : String)
    (importClause : Option ImportClause) (m : ImportsMap) :
    Except String (ImportsMap × Nat) :=
  if modulePath = source then
    match importClause with
    | none =>
      Except.error "TypeError: Cannot read properties of undefined (reading \x27namedBindings\x27)"
    | some clause =>
      match clause.namedBindings with
      | some nb => Except.ok (collectIdentifiers m target nb, 1)
      | none => Except.ok (m, 1)
  else
    Except.ok (m, 0)

/-- Model of the body of the statement callback in `migrateImports`
(v2.ts lines 185-330) for an import declaration with a string-literal
specifier: the fifteen `redirectImport` calls in source order, followed by the
special `graphql-tag` branch, which reads
`statement.importClause.name.escapedText` (a TypeError when the import clause
or its default binding is absent) and pushes `gql` under `apollo-angular`
with the default binding name as alias whenever it differs from `gql`.
The returned number counts the `recorder.remove` calls for this statement. -/
def processImport (modulePath : String) (importClause : Option ImportClause)
    (m : ImportsMap) : Except String (ImportsMap × Nat) := do
  let r1 ← redirectImport "apollo-cache-inmemory" "@apollo/client/core" modulePath importClause m
  let r2 ← redirectImport "apollo-client" "@apollo/client/core" modulePath importClause r1.1
  let r3 ← redirectImport "apollo-link" "@apollo/client/core" modulePath importClause r2.1
  let r4 ← redirectImport "apollo-cache" "@apollo/client/core" modulePath importClause r3.1
  let r5 ← redirectImport "apollo-angular-link-http" "apollo-angular/http" modulePath importClause r4.1
  let r6 ← redirectImport "apollo-angular-link-http-batch" "apollo-angular/http" modulePath importClause r5.1
  let r7 ← redirectImport "apollo-utilities" "@apollo/client/utilities" modulePath importClause r6.1
  let r8 ← redirectImport "apollo-link-http" "@apollo/client/link/http" modulePath importClause r7.1
  let r9 ← redirectImport "apollo-link-batch-http" "@apollo/client/link/batch-http" modulePath importClause r8.1
  let r10 ← redirectImport "apollo-link-context" "@apollo/client/link/context" modulePath importClause r9.1
  let r11 ← redirectImport "apollo-link-error" "@apollo/client/link/error" modulePath importClause r10.1
  let r12 ← redirectImport "apollo-link-schema" "@apollo/client/link/schema" modulePath importClause r11.1
  let r13 ← redirectImport "apollo-link-ws" "@apollo/client/link/ws" modulePath importClause r12.1
  let r14 ← redirectImport "apollo-angular" "apollo-angular" modulePath importClause r13.1
  let r15 ← redirectImport "apollo-angular-link-headers" "apollo-angular/headers" modulePath importClause r14.1
  let removed := r1.2 + r2.2 + r3.2 + r4.2 + r5.2 + r6.2 + r7.2 + r8.2 +
    r9.2 + r10.2 + r11.2 + r12.2 + r13.2 + r14.2 + r15.2
  if modulePath = "graphql-tag" then
    match importClause with
    | none =>
      Except.error "TypeError: Cannot read properties of undefined (reading \x27name\x27)"
    | some clause =>
      match clause.name with
      | none =>
        Except.error "TypeError: Cannot read properties of undefined (reading \x27escapedText\x27)"
      | some localName =>
        Except.ok
          (pushSymbol r15.1 "apollo-angular"
            { name := "gql", aliasName := if localName ≠ "gql" then some localName else none },
          removed + 1)
  else
    Except.ok (r15.1, removed)

/-- Process one statement: the surrounding guard
`ts.isImportDeclaration(statement) && ts.isStringLiteral(statement.moduleSpecifier)`
skips everything that is not an import declaration with a string-literal
specifier. -/
def processStatement (s : Statement) (m : ImportsMap) :
    Except String (ImportsMap × Nat) :=
  match s with
  | .importDecl importClause (.stringLit modulePath) => processImport modulePath importClause m
  | .importDecl _ (.expr _) => Except.ok (m, 0)
  | .other _ => Except.ok (m, 0)

/-- Scan all items of a file in order, threading the imports map, and record
for every item how many times `recorder.remove` was called on it. -/
def scanFile : List Item → ImportsMap → Except String (ImportsMap × List (Item × Nat))
  | [], m => Except.ok (m, [])
  | .trivia t :: rest, m => do
    let r ← scanFile rest m
    Except.ok (r.1, (.trivia t, 0) :: r.2)
  | .stmt s :: rest, m => do
    let p ← processStatement s m
    let r ← scanFile rest p.1
    Except.ok (r.1, (.stmt s, p.2) :: r.2)

/-- Turn an accumulated symbol back into the AST of the specifier the emitted
text `name as alias` (or bare `name`) parses to. -/
def symbolToSpecifier (sym : ImportedSymbol) : ImportSpecifier :=
  match sym.aliasName with
  | some a => { propertyName := some sym.name, name := a }
  | none => { propertyName := none, name := sym.name }

/-- The AST of the emitted statement
`import \x7bprops\x7d from 'importSource';` for one destination bucket. -/
def renderedImport (importSource : String) (syms : List ImportedSymbol) : Statement :=
  .importDecl
    (some { name := none, namedBindings := some (syms.map symbolToSpecifier) })
    (.stringLit importSource)

/-- The items inserted by the `importSources.forEach` loop (v2.ts lines
334-342): one emitted import statement plus its trailing newline per bucket,
in bucket (insertion) order, all at the file's first-token position. -/
def insertedItems (m : ImportsMap) : List Item :=
  (m.map fun b => [Item.stmt (renderedImport b.1 b.2), Item.trivia "\n"]).flatten

/-- Model of the whole per-file pass of `migrateImports` (v2.ts lines
124-347): scan every statement, and commit the recorded edits only when
`Object.keys(importsMap)` is non-empty; otherwise the file is left exactly
as it was.  Committing applies every recorded removal and places the
emitted imports at the file's first-token position, after the leading trivia. -/
def migrateFile (items : List Item) : Except String (List Item) := do
  let r ← scanFile items []
  let m := r.1
  let scanned := r.2
  if m.isEmpty then
    Except.ok items
  else
    let lead := (scanned.takeWhile fun p => p.1.isTrivia).map Prod.fst
    let rest := scanned.dropWhile fun p => p.1.isTrivia
    let kept := ((rest.filter fun p => p.2 = 0).map Prod.fst)
    Except.ok (lead ++ insertedItems m ++ kept)

/-- Join rendered specifier texts with `, `, as `Array.prototype.join`. -/
def joinProps : List String → String
  | [] => ""
  | [p] => p
  | p :: rest => p ++ ", " ++ joinProps rest

/-- Render one specifier: `name as alias` via its AST form. -/
def printSpecifier (s : ImportSpecifier) : String :=
  match s.propertyName with
  | some p => p ++ " as " ++ s.name
  | none => s.name

/-- Render an import clause. -/
def printClause (c : ImportClause) : String :=
  match c.name, c.namedBindings with
  | some d, some nb => d ++ ", \x7b" ++ joinProps (nb.map printSpecifier) ++ "\x7d"
  | some d, none => d
  | none, some nb => "\x7b" ++ joinProps (nb.map printSpecifier) ++ "\x7d"
  | none, none => ""

/-- Render a statement back to source text.  On the emitted import ASTs this
produces exactly the template
`import \x7bprops\x7d from 'importSource';` of v2.ts line 340. -/
def printStatement : Statement → String
  | .other t => t
  | .importDecl none (.stringLit m) => "import \x27" ++ m ++ "\x27;"
  | .importDecl none (.expr t) => "import " ++ t ++ ";"
  | .importDecl (some c) (.stringLit m) =>
    "import " ++ printClause c ++ " from \x27" ++ m ++ "\x27;"
  | .importDecl (some c) (.expr t) =>
    "import " ++ printClause c ++ " from " ++ t ++ ";"

/-- The file text: concatenation of the items' texts. -/
def render (items : List Item) : String :=
  (items.map fun it =>
    match it with
    | .stmt s => printStatement s
    | .trivia t => t).foldr (fun a b => a ++ b) ""

/-- Whether a module path is matched by the migration: one of the fifteen
`redirectImport` sources, or the special `graphql-tag` case. -/
def matchedPath (mp : String) : Bool :=
  mp = "apollo-cache-inmemory" || mp = "apollo-client" || mp = "apollo-link" ||
  mp = "apollo-cache" || mp = "apollo-angular-link-http" ||
  mp = "apollo-angular-link-http-batch" || mp = "apollo-utilities" ||
  mp = "apollo-link-http" || mp = "apollo-link-batch-http" ||
  mp = "apollo-link-context" || mp = "apollo-link-error" ||
  mp = "apollo-link-schema" || mp = "apollo-link-ws" || mp = "apollo-angular" ||
  mp = "apollo-angular-link-headers" || mp = "graphql-tag"

/-- Whether a statement is matched by the migration. -/
def stmtMatches : Statement → Bool
  | .importDecl _ (.stringLit mp) => matchedPath mp
  | _ => false

/-- Whether an item is left untouched by the scan (trivia, or an unmatched
statement). -/
def itemUnmatched : Item → Bool
  | .stmt s => !stmtMatches s
  | .trivia _ => true

/-! ### Concrete files used for claim instances -/

/-- The file `import gql from 'graphql-tag';` plus its newline. -/
def gqlTagFile : List Item :=
  [Item.stmt (.importDecl (some ⟨some "gql", none⟩) (.stringLit "graphql-tag")),
   Item.trivia "\n"]

/-- What one migration run produces on `gqlTagFile`: the emitted import (with
its own newline) followed by the leftover original newline. -/
def gqlTagFileOnce : List Item :=
  [Item.stmt (renderedImport "apollo-angular" [⟨"gql", none⟩]),
   Item.trivia "\n", Item.trivia "\n"]

/-- What a second migration run produces: the `apollo-angular` import matches
the `apollo-angular` rule again, so it is rewritten once more and one more
newline is left behind. -/
def gqlTagFileTwice : List Item :=
  [Item.stmt (renderedImport "apollo-angular" [⟨"gql", none⟩]),
   Item.trivia "\n", Item.trivia "\n", Item.trivia "\n"]

/-- The file `import \x7bX\x7d from 'apollo-client';` plus its newline. -/
def apolloClientXFile : List Item :=
  [Item.stmt (.importDecl (some ⟨none, some [⟨none, "X"⟩]⟩) (.stringLit "apollo-client")),
   Item.trivia "\n"]

/-- The migration's output on `apolloClientXFile`; it contains no import from
a mapped source module, so a second run leaves it alone. -/
def apolloClientXFileOnce : List Item :=
  [Item.stmt (renderedImport "@apollo/client/core" [⟨"X", none⟩]),
   Item.trivia "\n", Item.trivia "\n"]

/-- Two statements importing the same name `X` from two old modules that both
map to `@apollo/client/core`. -/
def dedupFile : List Item :=
  [Item.stmt (.importDecl (some ⟨none, some [⟨none, "X"⟩]⟩) (.stringLit "apollo-client")),
   Item.trivia "\n",
   Item.stmt (.importDecl (some ⟨none, some [⟨none, "X"⟩]⟩) (.stringLit "apollo-link")),
   Item.trivia "\n"]

/-- The imports map accumulated on `dedupFile`: the `(X, no alias)` pair is
pushed twice into the `@apollo/client/core` bucket. -/
def dedupMap : ImportsMap :=
  [("@apollo/client/core", [⟨"X", none⟩, ⟨"X", none⟩])]

/-- The scan record for `dedupFile`: both statements removed once. -/
def dedupScanned : List (Item × Nat) :=
  [(Item.stmt (.importDecl (some ⟨none, some [⟨none, "X"⟩]⟩) (.stringLit "apollo-client")), 1),
   (Item.trivia "\n", 0),
   (Item.stmt (.importDecl (some ⟨none, some [⟨none, "X"⟩]⟩) (.stringLit "apollo-link")), 1),
   (Item.trivia "\n", 0)]

/-- A file with one matched named import and one unrelated statement. -/
def c4File : List Item :=
  [Item.stmt (.importDecl (some ⟨none, some [⟨none, "Y"⟩]⟩) (.stringLit "apollo-cache-inmemory")),
   Item.trivia "\n",
   Item.stmt (.other "const a = 1;"),
   Item.trivia "\n"]

/-- The imports map accumulated on `c4File`. -/
def c4Map : ImportsMap := [("@apollo/client/core", [⟨"Y", none⟩])]

/-- The scan record for `c4File`. -/
def c4Scanned : List (Item × Nat) :=
  [(Item.stmt (.importDecl (some ⟨none, some [⟨none, "Y"⟩]⟩) (.stringLit "apollo-cache-inmemory")), 1),
   (Item.trivia "\n", 0),
   (Item.stmt (.other "const a = 1;"), 0),
   (Item.trivia "\n", 0)]

/-- The migration's output on `c4File`: the matched statement is gone, the
unrelated statement and the trivia remain. -/
def c4Out : List Item :=
  [Item.stmt (renderedImport "@apollo/client/core" [⟨"Y", none⟩]),
   Item.trivia "\n", Item.trivia "\n",
   Item.stmt (.other "const a = 1;"),
   Item.trivia "\n"]

/-- An unrelated Angular import that matches nothing. -/
def angularCoreFile : List Item :=
  [Item.stmt (.importDecl (some ⟨none, some [⟨none, "Injectable"⟩]⟩) (.stringLit "@angular/core")),
   Item.trivia "\n"]

/-- A default-only import from a mapped source module. -/
def defaultOnlyFile : List Item :=
  [Item.stmt (.importDecl (some ⟨some "ApolloCache", none⟩) (.stringLit "apollo-cache")),
   Item.trivia "\n"]

/-! ### General lemmas about the scan -/

theorem ok_bind {α β : Type} (a : α) (f : α → Except String β) :
    (Except.ok a : Except String α) >>= f = f a := rfl

theorem error_bind {α β : Type} (e : String) (f : α → Except String β) :
    (Except.error e : Except String α) >>= f = Except.error e := rfl

theorem redirectImport_noMatch (source target modulePath : String)
    (importClause : Option ImportClause) (m : ImportsMap)
    (h : ¬ modulePath = source) :
    redirectImport source target modulePath importClause m = Except.ok (m, 0) := by
  simp [redirectImport, h]

/-- A statement whose module path matches no rule and is not `graphql-tag`
leaves the imports map unchanged and records no removal. -/
theorem processImport_noMatch (mp : String) (c : Option ImportClause) (m : ImportsMap)
    (h : matchedPath mp = false) :
    processImport mp c m = Except.ok (m, 0) := by
  simp only [matchedPath, Bool.or_eq_false_iff, decide_eq_false_iff_not] at h
  obtain ⟨⟨⟨⟨⟨⟨⟨⟨⟨⟨⟨⟨⟨⟨⟨h1, h2⟩, h3⟩, h4⟩, h5⟩, h6⟩, h7⟩, h8⟩, h9⟩, h10⟩, h11⟩,
    h12⟩, h13⟩, h14⟩, h15⟩, h16⟩ := h
  simp [processImport, redirectImport_noMatch, h1, h2, h3, h4, h5, h6, h7, h8,
    h9, h10, h11, h12, h13, h14, h15, h16, ok_bind]

/-- An unmatched statement leaves the imports map unchanged and records no
removal. -/
theorem processStatement_unmatched (s : Statement) (m : ImportsMap)
    (h : stmtMatches s = false) :
    processStatement s m = Except.ok (m, 0) := by
  cases s with
  | other t => rfl
  | importDecl c spec =>
    cases spec with
    | expr t => rfl
    | stringLit mp => exact processImport_noMatch mp c m h

/-- Scanning a file whose items are all unmatched returns the map unchanged
and records no removal anywhere. -/
theorem scanFile_unmatched (items : List Item) (m : ImportsMap)
    (h : items.all itemUnmatched = true) :
    scanFile items m = Except.ok (m, items.map fun it => (it, 0)) := by
  induction items generalizing m with
  | nil => rfl
  | cons it rest ih =>
    simp only [List.all_cons, Bool.and_eq_true] at h
    obtain ⟨h1, h2⟩ := h
    cases it with
    | trivia t =>
      simp [scanFile, ih m h2, ok_bind]
    | stmt s =>
      have hs : stmtMatches s = false := by
        simpa [itemUnmatched] using h1
      simp [scanFile, processStatement_unmatched s m hs, ih m h2, ok_bind]

/-- On a file whose items are all unmatched, the migration is the identity:
the imports map stays empty, so the recorded edits are never committed. -/
theorem migrateFile_unmatched (items : List Item)
    (h : items.all itemUnmatched = true) :
    migrateFile items = Except.ok items := by
  simp [migrateFile, scanFile_unmatched items [] h, ok_bind, List.isEmpty]

set_option maxHeartbeats 2000000 in
/-- When processing a matched statement succeeds, `recorder.remove` was
called on it exactly once. -/
theorem processImport_matched_once (mp : String) (c : Option ImportClause)
    (m m' : ImportsMap) (n : Nat)
    (hmp : matchedPath mp = true)
    (h : processImport mp c m = Except.ok (m', n)) : n = 1 := by
  simp only [matchedPath, Bool.or_eq_true, decide_eq_true_eq, or_assoc] at hmp
  cases c with
  | none =>
    rcases hmp with h'|h'|h'|h'|h'|h'|h'|h'|h'|h'|h'|h'|h'|h'|h'|h' <;> subst h' <;>
      simp_all [processImport, redirectImport, ok_bind, error_bind]
  | some clause =>
    cases hnb : clause.namedBindings with
    | none =>
      cases hname : clause.name with
      | none =>
        rcases hmp with h'|h'|h'|h'|h'|h'|h'|h'|h'|h'|h'|h'|h'|h'|h'|h' <;> subst h' <;>
          simp_all [processImport, redirectImport, ok_bind, error_bind]
      | some localName =>
        rcases hmp with h'|h'|h'|h'|h'|h'|h'|h'|h'|h'|h'|h'|h'|h'|h'|h' <;> subst h' <;>
          simp_all [processImport, redirectImport, ok_bind, error_bind]
    | some nb =>
      cases hname : clause.name with
      | none =>
        rcases hmp with h'|h'|h'|h'|h'|h'|h'|h'|h'|h'|h'|h'|h'|h'|h'|h' <;> subst h' <;>
          simp_all [processImport, redirectImport, ok_bind, error_bind]
      | some localName =>
        rcases hmp with h'|h'|h'|h'|h'|h'|h'|h'|h'|h'|h'|h'|h'|h'|h'|h' <;> subst h' <;>
          simp_all [processImport, redirectImport, ok_bind, error_bind]

/-- Count version for whole statements. -/
theorem processStatement_matched_once (s : Statement) (m m' : ImportsMap) (n : Nat)
    (hs : stmtMatches s = true)
    (h : processStatement s m = Except.ok (m', n)) : n = 1 := by
  cases s with
  | other t => simp [stmtMatches] at hs
  | importDecl c spec =>
    cases spec with
    | expr t => simp [stmtMatches] at hs
    | stringLit mp => exact processImport_matched_once mp c m m' n hs h

/-- Every matched statement recorded in a successful scan carries removal
count exactly one. -/
theorem scanFile_matched_counts (items : List Item) (m0 m : ImportsMap)
    (scanned : List (Item × Nat))
    (h : scanFile items m0 = Except.ok (m, scanned)) :
    ∀ s k, (Item.stmt s, k) ∈ scanned → stmtMatches s = true → k = 1 := by
  induction items generalizing m0 m scanned with
  | nil =>
    simp only [scanFile, Except.ok.injEq, Prod.mk.injEq] at h
    intro s k hk
    rw [← h.2] at hk
    simp at hk
  | cons it rest ih =>
    cases it with
    | trivia t =>
      cases hr : scanFile rest m0 with
      | error e =>
        rw [scanFile, hr, error_bind] at h
        exact absurd h (by simp)
      | ok r =>
        rw [scanFile, hr, ok_bind] at h
        simp only [Except.ok.injEq, Prod.mk.injEq] at h
        intro s k hk hmatch
        rw [← h.2] at hk
        simp only [List.mem_cons] at hk
        rcases hk with hk | hk
        · exact absurd hk (by simp)
        · exact ih m0 r.1 r.2 (by rw [hr]) s k hk hmatch
    | stmt s0 =>
      cases hp : processStatement s0 m0 with
      | error e =>
        rw [scanFile, hp, error_bind] at h
        exact absurd h (by simp)
      | ok p =>
        cases hr : scanFile rest p.1 with
        | error e =>
          rw [scanFile, hp, ok_bind, hr, error_bind] at h
          exact absurd h (by simp)
        | ok r =>
          rw [scanFile, hp, ok_bind, hr, ok_bind] at h
          simp only [Except.ok.injEq, Prod.mk.injEq] at h
          intro s k hk hmatch
          rw [← h.2] at hk
          simp only [List.mem_cons, Prod.mk.injEq, Item.stmt.injEq] at hk
          rcases hk with ⟨hs, hkk⟩ | hk
          · rw [hkk]
            rw [hs] at hmatch
            exact processStatement_matched_once s0 m0 p.1 p.2 hmatch (by rw [hp])
          · exact ih p.1 r.1 r.2 (by rw [hr]) s k hk hmatch

/-! ### Claim theorems -/

/-- Claim C1 (code bug): the alias of a rewritten named import specifier is
not the local binding name.  For `import \x7bInMemoryCache as Cache\x7d from
'apollo-cache-inmemory';`, `getIdentifiers` compares the exported name with
the local binding but then stores the exported name itself as the alias, so
the emitted statement reads `import \x7bInMemoryCache as InMemoryCache\x7d
from '@apollo/client/core';` — not the claimed
`exportedName as localBindingName`, and the local binding `Cache` is dropped
from the file. -/
theorem alias_clause_uses_exported_name :
    getIdentifiers [⟨some "InMemoryCache", "Cache"⟩]
      = [⟨"InMemoryCache", some "InMemoryCache"⟩] ∧
    migrateFile
      [Item.stmt (.importDecl (some ⟨none, some [⟨some "InMemoryCache", "Cache"⟩]⟩)
        (.stringLit "apollo-cache-inmemory")), Item.trivia "\n"]
      = Except.ok
        [Item.stmt (renderedImport "@apollo/client/core" [⟨"InMemoryCache", some "InMemoryCache"⟩]),
         Item.trivia "\n", Item.trivia "\n"] ∧
    printStatement (renderedImport "@apollo/client/core" [⟨"InMemoryCache", some "InMemoryCache"⟩])
      = "import \x7bInMemoryCache as InMemoryCache\x7d from \x27@apollo/client/core\x27;" :=
  ⟨rfl, rfl, rfl⟩

/-- Claim C2 (counterexample): the rewrite is not idempotent.  On
`import gql from 'graphql-tag';` the first run emits an `apollo-angular`
statement, which itself matches the `apollo-angular` rule, so the second run
rewrites it again; `recorder.remove` does not cover the emitted trailing
newline, so every further run appends one more newline and the second run's
output differs from the first run's. -/
theorem second_run_not_noop :
    migrateFile gqlTagFile = Except.ok gqlTagFileOnce ∧
    migrateFile gqlTagFileOnce = Except.ok gqlTagFileTwice ∧
    gqlTagFileTwice ≠ gqlTagFileOnce ∧
    render gqlTagFileTwice ≠ render gqlTagFileOnce :=
  ⟨rfl, rfl, by decide, by decide⟩

set_option linter.unusedVariables false in
/-- Claim C2 (amended): after the first run, a second run is a true no-op
(identical output, no write) provided the first run's output contains
no import statement matching the mapping — equivalently, whenever the first run
collected nothing into the `apollo-angular` bucket, since `apollo-angular`
is the only destination module that is also a source module. -/
theorem second_run_noop_when_output_unmatched (f0 f1 : List Item)
    (h1 : migrateFile f0 = Except.ok f1)
    (h2 : f1.all itemUnmatched = true) :
    migrateFile f1 = Except.ok f1 :=
  migrateFile_unmatched f1 h2

/-- Witness for `second_run_noop_when_output_unmatched`: the first-run output
of `import \x7bX\x7d from 'apollo-client';` only imports from
`@apollo/client/core`, so the second run returns it unchanged. -/
theorem second_run_noop_when_output_unmatched_witness :
    (migrateFile apolloClientXFile = Except.ok apolloClientXFileOnce ∧
      apolloClientXFileOnce.all itemUnmatched = true) ∧
    migrateFile apolloClientXFileOnce = Except.ok apolloClientXFileOnce :=
  ⟨⟨rfl, by decide⟩,
    second_run_noop_when_output_unmatched apolloClientXFile apolloClientXFileOnce rfl (by decide)⟩

/-- Claim C3 (counterexample): no deduplication happens.  When
`import \x7bX\x7d from 'apollo-client';` and `import \x7bX\x7d from
'apollo-link';` both land in the `@apollo/client/core` bucket, the pair
`(X, no alias)` is pushed twice, and the merged output contains it twice —
`import \x7bX, X\x7d from '@apollo/client/core';` — not exactly once. -/
theorem merged_pair_not_deduplicated :
    scanFile dedupFile [] = Except.ok (dedupMap, dedupScanned) ∧
    dedupMap.map (fun b => (b.1, b.2.count ⟨"X", none⟩)) = [("@apollo/client/core", 2)] ∧
    migrateFile dedupFile = Except.ok
      [Item.stmt (renderedImport "@apollo/client/core" [⟨"X", none⟩, ⟨"X", none⟩]),
       Item.trivia "\n", Item.trivia "\n", Item.trivia "\n"] ∧
    printStatement (renderedImport "@apollo/client/core" [⟨"X", none⟩, ⟨"X", none⟩])
      = "import \x7bX, X\x7d from \x27@apollo/client/core\x27;" :=
  ⟨rfl, by decide, rfl, rfl⟩

/-- Claim C3 (amended): a `(name, alias)` pair contributed by two distinct
original statements to the same destination bucket occurs once per
contribution — twice, for the two-statement scenario — in the bucket and in
the emitted import, for any imported name `x`. -/
theorem pair_once_per_contribution (x : String) :
    scanFile
      [Item.stmt (.importDecl (some ⟨none, some [⟨none, x⟩]⟩) (.stringLit "apollo-client")),
       Item.stmt (.importDecl (some ⟨none, some [⟨none, x⟩]⟩) (.stringLit "apollo-link"))] []
      = Except.ok ([("@apollo/client/core", [⟨x, none⟩, ⟨x, none⟩])],
        [(Item.stmt (.importDecl (some ⟨none, some [⟨none, x⟩]⟩) (.stringLit "apollo-client")), 1),
         (Item.stmt (.importDecl (some ⟨none, some [⟨none, x⟩]⟩) (.stringLit "apollo-link")), 1)]) ∧
    migrateFile
      [Item.stmt (.importDecl (some ⟨none, some [⟨none, x⟩]⟩) (.stringLit "apollo-client")),
       Item.stmt (.importDecl (some ⟨none, some [⟨none, x⟩]⟩) (.stringLit "apollo-link"))]
      = Except.ok
        [Item.stmt (renderedImport "@apollo/client/core" [⟨x, none⟩, ⟨x, none⟩]),
         Item.trivia "\n"] := by
  constructor
  · simp [scanFile, processStatement, processImport, redirectImport, collectIdentifiers,
      getIdentifiers, pushSymbol, ok_bind]
  · simp [migrateFile, scanFile, processStatement, processImport, redirectImport,
      collectIdentifiers, getIdentifiers, pushSymbol, insertedItems, renderedImport,
      ok_bind, List.isEmpty, List.takeWhile, List.dropWhile, List.filter, Item.isTrivia]

/-- Claim C4 (counterexample): a matched statement is not always deleted.
`import ApolloCache from 'apollo-cache';` matches the `apollo-cache` rule and
its removal is recorded, but since no symbol is collected the imports map
stays empty, `commitUpdate` is never called, and the file — statement
included — is returned unchanged. -/
theorem matched_statement_not_deleted :
    stmtMatches (.importDecl (some ⟨some "ApolloCache", none⟩) (.stringLit "apollo-cache")) = true ∧
    scanFile defaultOnlyFile [] = Except.ok ([],
      [(Item.stmt (.importDecl (some ⟨some "ApolloCache", none⟩) (.stringLit "apollo-cache")), 1),
       (Item.trivia "\n", 0)]) ∧
    migrateFile defaultOnlyFile = Except.ok defaultOnlyFile :=
  ⟨by decide, rfl, rfl⟩

/-- Claim C4 (amended): whenever the scan completes without error,
every import statement whose string-literal specifier matches a mapping rule has
`recorder.remove` called on it exactly once, and — provided at least one
destination bucket received a symbol — the committed output keeps none of
the matched statements (leading trivia, then the emitted imports, then
exactly the unremoved items); when no bucket received a symbol the recorded
removals are discarded and the file is returned unchanged. -/
theorem matched_deleted_exactly_once (items : List Item) (m : ImportsMap)
    (scanned : List (Item × Nat))
    (h : scanFile items [] = Except.ok (m, scanned)) :
    (∀ s k, (Item.stmt s, k) ∈ scanned → stmtMatches s = true → k = 1) ∧
    (∀ s, stmtMatches s = true →
      Item.stmt s ∉ (((scanned.dropWhile fun p => p.1.isTrivia).filter fun p => p.2 = 0).map Prod.fst)) ∧
    (m ≠ [] → migrateFile items =
      Except.ok (((scanned.takeWhile fun p => p.1.isTrivia).map Prod.fst) ++ insertedItems m ++
        (((scanned.dropWhile fun p => p.1.isTrivia).filter fun p => p.2 = 0).map Prod.fst))) ∧
    (m = [] → migrateFile items = Except.ok items) := by
  have hcount := scanFile_matched_counts items [] m scanned h
  refine ⟨hcount, ?_, ?_, ?_⟩
  · intro s hs hmem
    simp only [List.mem_map] at hmem
    obtain ⟨p, hpmem, hfst⟩ := hmem
    obtain ⟨p1, p2⟩ := p
    simp only [List.mem_filter] at hpmem
    obtain ⟨hpdrop, hp0⟩ := hpmem
    simp only at hfst
    subst hfst
    have hpscanned : (Item.stmt s, p2) ∈ scanned :=
      (List.dropWhile_sublist _).subset hpdrop
    have h1 : p2 = 1 := hcount s p2 hpscanned hs
    simp only [decide_eq_true_eq] at hp0
    subst hp0
    exact absurd h1 (by decide)
  · intro hm
    have hne : m.isEmpty = false := by simpa [List.isEmpty_iff] using hm
    simp [migrateFile, h, ok_bind, hne, hm]
  · intro hm
    subst hm
    simp [migrateFile, h, ok_bind, List.isEmpty]

/-- Witness for `matched_deleted_exactly_once` at a concrete file with one
matched import and one unrelated statement. -/
theorem matched_deleted_exactly_once_witness :
    scanFile c4File [] = Except.ok (c4Map, c4Scanned) ∧ c4Map ≠ [] ∧
    migrateFile c4File = Except.ok c4Out :=
  ⟨rfl, by decide, by
    have hmain := (matched_deleted_exactly_once c4File c4Map c4Scanned rfl).2.2.1 (by decide)
    exact hmain.trans (congrArg Except.ok (by decide))⟩

/-- Claim C5 (confirmed): a file containing zero import statements matching
the mapping is left byte-for-byte identical and no write is performed: the
scan collects nothing (so `commitUpdate` is never reached) and the migration
returns the file unchanged. -/
theorem noMatch_file_unchanged (items : List Item)
    (h : items.all itemUnmatched = true) :
    scanFile items [] = Except.ok ([], items.map fun it => (it, 0)) ∧
    migrateFile items = Except.ok items :=
  ⟨scanFile_unmatched items [] h, migrateFile_unmatched items h⟩

/-- Witness for `noMatch_file_unchanged` on an unrelated Angular import. -/
theorem noMatch_file_unchanged_witness :
    angularCoreFile.all itemUnmatched = true ∧
    migrateFile angularCoreFile = Except.ok angularCoreFile :=
  ⟨by decide, (noMatch_file_unchanged angularCoreFile (by decide)).2⟩

/-- Claim C6 (code bug): a side-effect-only import whose specifier matches a
rule does not process successfully: `redirectImport` reads
`statement.importClause.namedBindings` while the import clause is absent, so
migration of the file fails with a TypeError instead of deleting the
statement. -/
theorem sideEffect_import_crashes :
    migrateFile [Item.stmt (.importDecl none (.stringLit "apollo-client")), Item.trivia "\n"]
      = Except.error "TypeError: Cannot read properties of undefined (reading \x27namedBindings\x27)" ∧
    redirectImport "apollo-client" "@apollo/client/core" "apollo-client" none []
      = Except.error "TypeError: Cannot read properties of undefined (reading \x27namedBindings\x27)" :=
  ⟨rfl, rfl⟩

/-- Claim C7 (confirmed): a default import from `graphql-tag` with local
binding `L` is removed exactly once and a named `gql` import under
`apollo-angular` is pushed, with alias `L` exactly when `L` differs from
`gql`; the emitted specifier therefore renders `gql` for `L = gql` and
`gql as L` otherwise, as the two concrete renderings show. -/
theorem graphqlTag_default_import_rewritten (L : String) (m : ImportsMap) :
    processStatement (.importDecl (some ⟨some L, none⟩) (.stringLit "graphql-tag")) m
      = Except.ok (pushSymbol m "apollo-angular"
          ⟨"gql", if L ≠ "gql" then some L else none⟩, 1) ∧
    migrateFile [Item.stmt (.importDecl (some ⟨some L, none⟩) (.stringLit "graphql-tag"))]
      = Except.ok
        [Item.stmt (renderedImport "apollo-angular" [⟨"gql", if L ≠ "gql" then some L else none⟩]),
         Item.trivia "\n"] ∧
    symbolToSpecifier ⟨"gql", if L ≠ "gql" then some L else none⟩
      = (if L = "gql" then ⟨none, "gql"⟩ else ⟨some "gql", L⟩) ∧
    printStatement (renderedImport "apollo-angular" [⟨"gql", none⟩])
      = "import \x7bgql\x7d from \x27apollo-angular\x27;" ∧
    printStatement (renderedImport "apollo-angular" [⟨"gql", some "myGql"⟩])
      = "import \x7bgql as myGql\x7d from \x27apollo-angular\x27;" := by
  refine ⟨rfl, rfl, ?_, rfl, rfl⟩
  by_cases hL : L = "gql" <;> simp [symbolToSpecifier, hL]

/-- Claim C8 (confirmed): an import whose module specifier is not a plain
string literal is treated as non-matching: the statement contributes nothing,
is never removed, no error is raised, and a file holding only it is returned
unchanged. -/
theorem nonLiteral_specifier_left_as_is (clause : Option ImportClause) (t : String)
    (m : ImportsMap) :
    processStatement (.importDecl clause (.expr t)) m = Except.ok (m, 0) ∧
    migrateFile [Item.stmt (.importDecl clause (.expr t))]
      = Except.ok [Item.stmt (.importDecl clause (.expr t))] :=
  ⟨rfl, rfl⟩

/-- Claim C9 (counterexample): the claim says a matched default-only import
is deleted; but in a file whose only matching import is
`import ApolloClient from 'apollo-client';` nothing is collected, the
recorded removal is never committed, and the statement survives unchanged. -/
theorem default_only_import_survives :
    migrateFile [Item.stmt (.importDecl (some ⟨some "ApolloClient", none⟩) (.stringLit "apollo-client")),
      Item.trivia "\n"]
      = Except.ok [Item.stmt (.importDecl (some ⟨some "ApolloClient", none⟩) (.stringLit "apollo-client")),
        Item.trivia "\n"] :=
  rfl

/-- Claim C9 (amended): a default-only import from a mapped source module
other than `graphql-tag` contributes no symbol to any destination bucket and
its removal is recorded once; the removal takes effect — silently dropping
the default binding from the file — exactly when some other import in the
file contributes a symbol, the file being returned unchanged otherwise. -/
theorem default_binding_dropped_only_when_committed (L : String) (m : ImportsMap) :
    processStatement (.importDecl (some ⟨some L, none⟩) (.stringLit "apollo-client")) m
      = Except.ok (m, 1) ∧
    migrateFile
      [Item.stmt (.importDecl (some ⟨some L, none⟩) (.stringLit "apollo-client")),
       Item.trivia "\n",
       Item.stmt (.importDecl (some ⟨none, some [⟨none, "X"⟩]⟩) (.stringLit "apollo-link")),
       Item.trivia "\n"]
      = Except.ok
        [Item.stmt (renderedImport "@apollo/client/core" [⟨"X", none⟩]),
         Item.trivia "\n", Item.trivia "\n", Item.trivia "\n"] :=
  ⟨rfl, rfl⟩

/-- Claim C10 (confirmed): the `graphql-tag` rewrite is total only when
the import clause has a default binding.  With named bindings but no default
binding the code reads `escapedText` of the absent default binding and the
error branch is reached; with a default binding present the rewrite
succeeds. -/
theorem graphqlTag_requires_default_binding (nb : List ImportSpecifier) (L : String)
    (m : ImportsMap) :
    processStatement (.importDecl (some ⟨none, some nb⟩) (.stringLit "graphql-tag")) m
      = Except.error "TypeError: Cannot read properties of undefined (reading \x27escapedText\x27)" ∧
    processStatement (.importDecl (some ⟨some L, some nb⟩) (.stringLit "graphql-tag")) m
      = Except.ok (pushSymbol m "apollo-angular"
          ⟨"gql", if L ≠ "gql" then some L else none⟩, 1) ∧
    migrateFile [Item.stmt (.importDecl (some ⟨none, some [⟨none, "gql"⟩]⟩) (.stringLit "graphql-tag"))]
      = Except.error "TypeError: Cannot read properties of undefined (reading \x27escapedText\x27)" :=
  ⟨rfl, rfl, rfl⟩

end V2
